import Mathlib

/-!
Shallow embedding of `src/esp32_camera_server.cpp` (Smart Plant Vision camera
server).  The HTTP-server library, camera driver, JPEG converter and sensor
subsystem are external collaborators; they are modelled by explicit inputs
(per-call environments) and by events recorded in traces.  Machine side
effects that matter to the verified properties — `esp_camera_fb_return`,
`free`, and `httpd_resp_send_chunk` — are recorded as trace events.  The C
`float` globals `temperature`/`humidity` are only ever rendered with `%.1f`,
so they are modelled as integer tenths together with a one-decimal renderer.
-/

namespace LeafVision

/-- Pixel format tag of a camera frame.  The source code only ever tests
`fb->format != PIXFORMAT_JPEG` / `s->pixformat == PIXFORMAT_JPEG`, so the
model keeps the JPEG format and a representative non-JPEG format. -/
inductive PixFormat
  | jpeg
  | other
deriving DecidableEq

/-- A camera frame buffer (`camera_fb_t`): the payload bytes and the format
tag.  `len` in the C struct is the byte length, i.e. `buf.length` here. -/
structure Frame where
  format : PixFormat
  buf : List Nat
deriving DecidableEq

/-- `#define PART_BOUNDARY "123456789000000000000987654321"` -/
def PART_BOUNDARY : String := "123456789000000000000987654321"

/-- `_STREAM_CONTENT_TYPE = "multipart/x-mixed-replace;boundary=" PART_BOUNDARY` -/
def STREAM_CONTENT_TYPE : String := "multipart/x-mixed-replace;boundary=" ++ PART_BOUNDARY

/-- `_STREAM_BOUNDARY = "\r\n--" PART_BOUNDARY "\r\n"` -/
def STREAM_BOUNDARY : String := "\r\n--" ++ PART_BOUNDARY ++ "\r\n"

/-- The part header produced by
`snprintf(part_buf, 64, "Content-Type: image/jpeg\r\nContent-Length: %u\r\n\r\n", n)`.
The 64-byte buffer never truncates: the fixed text is 46 bytes and a 32-bit
`%u` adds at most 10 digits. -/
def streamPart (n : Nat) : String :=
  "Content-Type: image/jpeg\r\nContent-Length: " ++ toString n ++ "\r\n\r\n"

/-- Data handed to one `httpd_resp_send_chunk` / `httpd_resp_send` call:
either C-string text or raw image bytes. -/
inductive ChunkData
  | str (s : String)
  | bytes (b : List Nat)
deriving DecidableEq

/-- Externally visible events of a handler: returning a frame to the camera
driver (`esp_camera_fb_return`), freeing a heap-allocated encode buffer
(`free(_jpg_buf)`), and attempting a chunked body write
(`httpd_resp_send_chunk`). -/
inductive Ev
  | fbReturn
  | freeBuf
  | sendChunk (d : ChunkData)
deriving DecidableEq

/-- The chunk writes contained in an event trace, in order. -/
def writesOf (evs : List Ev) : List ChunkData :=
  evs.filterMap fun e =>
    match e with
    | Ev.sendChunk d => some d
    | _ => none

/-- An HTTP response as assembled through `httpd_resp_set_type` /
`httpd_resp_set_hdr` / `httpd_resp_send*`: status code, the headers that were
explicitly set on the request object before sending (content type included,
since `httpd_resp_set_type` sets the Content-Type header), and the body. -/
structure HttpResponse where
  status : Nat
  headers : List (String × String)
  body : ChunkData
deriving DecidableEq

/-- `httpd_resp_send_404(req)`: a bare 404 response; no custom header was set
on the request before any call site of it in this file. -/
def resp404 : HttpResponse := ⟨404, [], ChunkData.str ""⟩

/-- `httpd_resp_send_500(req)`: a bare 500 response; no custom header was set
on the request before any call site of it in this file. -/
def resp500 : HttpResponse := ⟨500, [], ChunkData.str ""⟩

/-- The `Access-Control-Allow-Origin: *` header pair, for stating which
responses carry it. -/
def corsHdr : String × String := ("Access-Control-Allow-Origin", "*")

/-- The success response of `cmd_handler`
(`httpd_resp_set_hdr(req, "Access-Control-Allow-Origin", "*");
httpd_resp_send(req, NULL, 0)`): empty body, CORS header set. -/
def okEmpty : HttpResponse :=
  ⟨200, [("Access-Control-Allow-Origin", "*")], ChunkData.str ""⟩

/-- `index_handler` (lines 397-400): sets the content type to `text/html`
and sends the static page.  The page markup is out of scope and passed in as
a parameter.  Note: no `Access-Control-Allow-Origin` header is set here. -/
def index_handler (html : String) : HttpResponse :=
  ⟨200, [("Content-Type", "text/html")], ChunkData.str html⟩

/-- `sensors_handler` (lines 138-146): serialises the sensor snapshot
(`getSensorJson()`, an external collaborator, passed in as a parameter) with
JSON content type, CORS header and cache disabling. -/
def sensors_handler (sensorJson : String) : HttpResponse :=
  ⟨200,
   [("Content-Type", "application/json"),
    ("Access-Control-Allow-Origin", "*"),
    ("Cache-Control", "no-cache")],
   ChunkData.str sensorJson⟩

/-- The camera sensor's parameter record (`sensor_t`: `s->pixformat` and the
`s->status` fields read by `status_handler`, written through the
`set_framesize`/`set_quality`/`set_contrast`/`set_brightness` function
pointers). -/
structure SensorState where
  pixformat : PixFormat
  framesize : Int
  quality : Int
  brightness : Int
  contrast : Int
deriving DecidableEq

/-- The global state visible to the handlers: the camera sensor parameters,
the `extern float temperature, humidity` globals (in tenths, since they are
only rendered with `%.1f`), `extern int soilMoisture`, and the flash LED duty
last written with `ledcWrite(7, val)`. -/
structure Globals where
  sensor : SensorState
  temperature : Int
  humidity : Int
  soilMoisture : Int
  flashDuty : Int
deriving DecidableEq

/-- C `printf %u` rendering of an `int` value: the value reinterpreted as an
unsigned 32-bit integer. -/
def u32render (v : Int) : String := toString ((v % (2 ^ 32)).toNat)

/-- `%.1f` rendering of a value held in integer tenths. -/
def fmt1 (t : Int) : String :=
  (if t < 0 then "-" else "") ++ toString (t.natAbs / 10) ++ "." ++ toString (t.natAbs % 10)

/-- The seven `sprintf` calls of `status_handler` (lines 219-225), in source
order: each list element is one `"\x22key\x22:value` emission. -/
def statusParts (g : Globals) : List (String × String) :=
  [("framesize", u32render g.sensor.framesize),
   ("quality", u32render g.sensor.quality),
   ("brightness", toString g.sensor.brightness),
   ("contrast", toString g.sensor.contrast),
   ("temperature", fmt1 g.temperature),
   ("humidity", fmt1 g.humidity),
   ("soilMoisture", toString g.soilMoisture)]

/-- The JSON body built by `status_handler` into `json_response`: an opening
brace, the seven key/value emissions (the first six with their trailing
comma, the last without), and a closing brace. -/
def statusJson (g : Globals) : String :=
  "\x7b" ++
    String.intercalate ","
      ((statusParts g).map fun kv => "\x22" ++ kv.1 ++ "\x22:" ++ kv.2) ++
    "\x7d"

/-- `status_handler` (lines 213-232): builds the JSON body from the current
sensor parameters and sensor globals, sets JSON content type and the CORS
header, and sends.  It performs no mutation, so it returns the globals
unchanged alongside the response. -/
def status_handler (g : Globals) : Globals × HttpResponse :=
  (g,
   ⟨200,
    [("Content-Type", "application/json"),
     ("Access-Control-Allow-Origin", "*")],
    ChunkData.str (statusJson g)⟩)

/-- C `atoi` digit-prefix accumulation: consume leading decimal digits,
returning the accumulated value. -/
def digitsToNat : List Char → Nat → Nat
  | [], acc => acc
  | c :: cs, acc => if c.isDigit then digitsToNat cs (acc * 10 + (c.toNat - 48)) else acc

/-- C `atoi`: skip leading whitespace, accept an optional sign, then read a
decimal digit prefix; anything unparsable yields 0. -/
def atoi (s : String) : Int :=
  match s.data.dropWhile (fun c => c = ' ' || c = '\t' || c = '\n' || c = '\r') with
  | '-' :: rest => -(digitsToNat rest 0 : Int)
  | '+' :: rest => (digitsToNat rest 0 : Int)
  | rest => (digitsToNat rest 0 : Int)

/-- The outcome of the HTTP-library query parsing steps of `cmd_handler`
(lines 155-179), which are external collaborator calls: whether the request
had a query string (`httpd_req_get_url_query_len + 1 > 1`), whether `malloc`
succeeded, whether `httpd_req_get_url_query_str` returned `ESP_OK`, and the
values `httpd_query_key_value` found for the `var` and `val` keys (`none`
when the key is absent or its value does not fit the 32-byte buffer). -/
structure CmdRequest where
  hasQuery : Bool
  mallocOk : Bool
  parseOk : Bool
  var : Option String
  val : Option String
deriving DecidableEq

/-- Whether each sensor setter call would be accepted by the hardware
(`s->set_*` returning 0) — a property of the external camera driver. -/
structure HwEnv where
  setFramesizeOk : Bool
  setQualityOk : Bool
  setContrastOk : Bool
  setBrightnessOk : Bool
deriving DecidableEq

/-- `cmd_handler` (lines 149-210): parameter-control endpoint.  Missing
query/params give 404 (`malloc` failure gives 500); otherwise the value is
`atoi`-parsed and dispatched on the parameter name.  `framesize` is applied
only when the current pixel format is JPEG; an unrecognised name sets
`res = -1`; any nonzero `res` gives 500; success sets the CORS header and
sends an empty body.  On a hardware-rejected set the model leaves the
parameter unchanged. -/
def cmd_handler (g : Globals) (hw : HwEnv) (rq : CmdRequest) : Globals × HttpResponse :=
  if rq.hasQuery = false then (g, resp404)
  else if rq.mallocOk = false then (g, resp500)
  else if rq.parseOk = false then (g, resp404)
  else
    match rq.var, rq.val with
    | some vname, some vstr =>
      let v := atoi vstr
      let r : Globals × Int :=
        if vname = "framesize" then
          (if g.sensor.pixformat = PixFormat.jpeg then
            (if hw.setFramesizeOk then
              ({ g with sensor := { g.sensor with framesize := v } }, 0)
            else (g, -1))
          else (g, 0))
        else if vname = "quality" then
          (if hw.setQualityOk then
            ({ g with sensor := { g.sensor with quality := v } }, 0)
          else (g, -1))
        else if vname = "contrast" then
          (if hw.setContrastOk then
            ({ g with sensor := { g.sensor with contrast := v } }, 0)
          else (g, -1))
        else if vname = "brightness" then
          (if hw.setBrightnessOk then
            ({ g with sensor := { g.sensor with brightness := v } }, 0)
          else (g, -1))
        else if vname = "flash" then ({ g with flashDuty := v }, 0)
        else (g, -1)
      if r.2 ≠ 0 then (r.1, resp500) else (r.1, okEmpty)
    | _, _ => (g, resp404)

/-- Per-call environment of `capture_handler`: the `esp_camera_fb_get()`
result and, for a non-JPEG frame, the behaviour of the `frame2jpg_cb`
collaborator (success flag and the JPEG bytes it streams through
`jpg_encode_stream`). -/
structure CaptureEnv where
  fb : Option Frame
  encodeOk : Bool
  encodedBytes : List Nat
deriving DecidableEq

/-- `capture_handler` (lines 46-76): acquires one frame; on failure sends a
bare 500 with no release.  On success it sets the JPEG content type,
Content-Disposition and CORS headers, sends the frame directly when it is
already JPEG or via the `frame2jpg_cb` chunked path otherwise, and then
releases the frame with `esp_camera_fb_return` on every such path (encode
failure included). -/
def capture_handler (env : CaptureEnv) : HttpResponse × List Ev :=
  match env.fb with
  | none => (resp500, [])
  | some f =>
    let hdrs : List (String × String) :=
      [("Content-Type", "image/jpeg"),
       ("Content-Disposition", "inline; filename=capture.jpg"),
       ("Access-Control-Allow-Origin", "*")]
    if f.format = PixFormat.jpeg then
      (⟨200, hdrs, ChunkData.bytes f.buf⟩, [Ev.fbReturn])
    else
      (⟨200, hdrs, ChunkData.bytes env.encodedBytes⟩, [Ev.fbReturn])

/-- The headers `stream_handler` sets on its (single, unbounded) response
before entering the loop (lines 86-91): the multipart content type and the
CORS header. -/
def streamRespHeaders : List (String × String) :=
  [("Content-Type", STREAM_CONTENT_TYPE), ("Access-Control-Allow-Origin", "*")]

/-- Collaborator behaviour during one iteration of the streaming loop: the
`esp_camera_fb_get()` result, the `frame2jpg` result (consulted only for a
non-JPEG frame; `some out` is the freshly allocated JPEG buffer), and whether
each of the three `httpd_resp_send_chunk` calls would return `ESP_OK`
(`false` models the client having disconnected / a socket error). -/
structure IterEnv where
  fb : Option Frame
  encodeRes : Option (List Nat)
  headerOk : Bool
  payloadOk : Bool
  boundaryOk : Bool
deriving DecidableEq

/-- The locals of `stream_handler` that survive from one loop iteration to
the next: the `fb` frame pointer and the `_jpg_buf` pointer (`none` = NULL).
`_jpg_buf_len` always equals the pointed-to buffer's length whenever it is
read, so it is not carried separately. -/
structure LoopState where
  fb : Option Frame
  jpgBuf : Option (List Nat)
deriving DecidableEq

/-- Lines 94-111 of the loop body: acquire a frame, and for a non-JPEG frame
run `frame2jpg` and immediately return the raw frame to the driver.  Yields
the `fb` local, the `_jpg_buf` local, the events so far, and whether
`res == ESP_OK` still holds. -/
def acquirePhase (st : LoopState) (e : IterEnv) :
    Option Frame × Option (List Nat) × List Ev × Bool :=
  match e.fb with
  | none => (none, st.jpgBuf, [], false)
  | some f =>
    if f.format ≠ PixFormat.jpeg then
      match e.encodeRes with
      | some out => (none, some out, [Ev.fbReturn], true)
      | none => (none, st.jpgBuf, [Ev.fbReturn], false)
    else
      (some f, some f.buf, [], true)

/-- Lines 112-121 of the loop body: the three `res == ESP_OK`-gated chunk
writes — part header, JPEG payload, boundary marker — each attempted only
while every previous step succeeded.  Yields the attempted writes and the
final `res == ESP_OK`. -/
def writePhase (e : IterEnv) (buf : List Nat) (ok1 : Bool) : List Ev × Bool :=
  if ok1 then
    if e.headerOk then
      if e.payloadOk then
        ([Ev.sendChunk (ChunkData.str (streamPart buf.length)),
          Ev.sendChunk (ChunkData.bytes buf),
          Ev.sendChunk (ChunkData.str STREAM_BOUNDARY)], e.boundaryOk)
      else
        ([Ev.sendChunk (ChunkData.str (streamPart buf.length)),
          Ev.sendChunk (ChunkData.bytes buf)], false)
    else
      ([Ev.sendChunk (ChunkData.str (streamPart buf.length))], false)
  else ([], false)

/-- Lines 122-129 of the loop body: `if(fb)` return it to the driver, else
`if(_jpg_buf)` free it; both pointers are NULL afterwards. -/
def releasePhase (fb1 : Option Frame) (buf1 : Option (List Nat)) :
    List Ev × LoopState :=
  match fb1 with
  | some _ => ([Ev.fbReturn], ⟨none, none⟩)
  | none =>
    match buf1 with
    | some _ => ([Ev.freeBuf], ⟨none, none⟩)
    | none => ([], ⟨none, none⟩)

/-- One full iteration of the `while(true)` body of `stream_handler`
(lines 93-132): acquire/encode, the three gated writes, the unconditional
release block.  Returns the surviving locals, the iteration's event trace,
and whether `res == ESP_OK` at the `if(res != ESP_OK) break` check. -/
def streamStep (st : LoopState) (e : IterEnv) : LoopState × List Ev × Bool :=
  match acquirePhase st e with
  | (fb1, buf1, evs1, ok1) =>
    match writePhase e (buf1.getD []) ok1 with
    | (evW, okW) =>
      match releasePhase fb1 buf1 with
      | (evR, st') => (st', evs1 ++ evW ++ evR, okW)

/-- The `while(true)` loop of `stream_handler`, driven by a finite list of
per-iteration collaborator behaviours: it runs one iteration per list
element until an iteration ends with `res != ESP_OK`.  The result is the
trace of each executed iteration. -/
def streamRun : LoopState → List IterEnv → List (List Ev)
  | _, [] => []
  | st, e :: rest =>
    match streamStep st e with
    | (st', evs, ok) => if ok then evs :: streamRun st' rest else [evs]

/-- `stream_handler` (lines 79-135): the streaming loop run from its initial
locals (`fb = NULL`, `_jpg_buf = NULL`). -/
def stream_handler (envs : List IterEnv) : List (List Ev) :=
  streamRun ⟨none, none⟩ envs

/-- The JPEG payload an iteration would stream, as determined by the
collaborators: the frame's own buffer when it is already JPEG, the
`frame2jpg` output for a non-JPEG frame, `none` when acquisition or encoding
fails. -/
def envPayload (e : IterEnv) : Option (List Nat) :=
  match e.fb with
  | none => none
  | some f => if f.format = PixFormat.jpeg then some f.buf else e.encodeRes

/-- A fully successful iteration environment: a payload is available and all
three chunk writes succeed. -/
def envOk (e : IterEnv) : Bool :=
  (envPayload e).isSome && e.headerOk && e.payloadOk && e.boundaryOk

/-- Whether a chunk is a JPEG payload write (as opposed to part-header or
boundary text). -/
def isPayloadChunk : ChunkData → Bool
  | ChunkData.bytes _ => true
  | ChunkData.str _ => false

/-- Sample globals with JPEG pixel format, for concrete evaluations. -/
def gJpeg : Globals := ⟨⟨PixFormat.jpeg, 5, 10, 0, 0⟩, 250, 600, 40, 0⟩

/-- Sample globals with a non-JPEG pixel format, for concrete evaluations. -/
def gOther : Globals := ⟨⟨PixFormat.other, 5, 10, 0, 0⟩, 250, 600, 40, 0⟩

/-- A hardware environment in which every parameter set is accepted. -/
def hwAllOk : HwEnv := ⟨true, true, true, true⟩

/-- A sample two-iteration streaming schedule: one JPEG frame streamed
directly, one non-JPEG frame that gets encoded, all writes succeeding. -/
def envsTwoFrames : List IterEnv :=
  [⟨some ⟨PixFormat.jpeg, [1, 2]⟩, none, true, true, true⟩,
   ⟨some ⟨PixFormat.other, [5]⟩, some [3, 4, 5], true, true, true⟩]

/-!
Supporting lemmas about one iteration of the streaming loop and about the
loop as a whole.
-/

/-- After any iteration, both surviving locals are NULL again: the release
block at the iteration's end always clears `fb` and `_jpg_buf`. -/
theorem streamStep_fst (st : LoopState) (e : IterEnv) :
    (streamStep st e).1 = ⟨none, none⟩ := by
  rcases e with ⟨fb, enc, h1, h2, h3⟩
  cases fb with
  | none =>
    cases hb : st.jpgBuf <;> simp [streamStep, acquirePhase, releasePhase, hb]
  | some f =>
    by_cases hf : f.format = PixFormat.jpeg
    · simp [streamStep, acquirePhase, releasePhase, hf]
    · cases enc <;> cases hb : st.jpgBuf <;>
        simp [streamStep, acquirePhase, releasePhase, hf, hb]

/-- The loop-continuation flag of an iteration equals `envOk`: the iteration
ends with `res == ESP_OK` exactly when acquisition, encoding (when needed)
and all three chunk writes succeeded. -/
theorem streamStep_cont (st : LoopState) (e : IterEnv) :
    (streamStep st e).2.2 = envOk e := by
  rcases e with ⟨fb, enc, h1, h2, h3⟩
  cases fb with
  | none =>
    cases hb : st.jpgBuf <;>
      simp [streamStep, acquirePhase, writePhase, releasePhase, envOk, envPayload, hb]
  | some f =>
    by_cases hf : f.format = PixFormat.jpeg
    · cases h1 <;> cases h2 <;> cases h3 <;>
        simp [streamStep, acquirePhase, writePhase, releasePhase, envOk, envPayload, hf]
    · cases enc <;> cases hb : st.jpgBuf <;> cases h1 <;> cases h2 <;> cases h3 <;>
        simp [streamStep, acquirePhase, writePhase, releasePhase, envOk, envPayload, hf, hb]

/-- When a payload is available and the header and payload writes succeed,
the iteration's chunk writes are exactly part header, payload, boundary, in
that order, with the header's Content-Length equal to the payload length. -/
theorem streamStep_writes (st : LoopState) (e : IterEnv) (buf : List Nat)
    (hp : envPayload e = some buf) (hh : e.headerOk = true) (hw : e.payloadOk = true) :
    writesOf (streamStep st e).2.1 =
      [ChunkData.str (streamPart buf.length), ChunkData.bytes buf,
       ChunkData.str STREAM_BOUNDARY] := by
  rcases e with ⟨fb, enc, h1, h2, h3⟩
  simp only at hh hw
  subst hh; subst hw
  cases fb with
  | none => simp [envPayload] at hp
  | some f =>
    by_cases hf : f.format = PixFormat.jpeg
    · simp [envPayload, hf] at hp
      subst hp
      simp [streamStep, acquirePhase, writePhase, releasePhase, writesOf, hf]
    · simp [envPayload, hf] at hp
      subst hp
      simp [streamStep, acquirePhase, writePhase, releasePhase, writesOf, hf]

/-- Unfolding the loop one iteration when the iteration fully succeeds: the
loop records the iteration's trace and continues from cleared locals. -/
theorem streamRun_cons_ok (st : LoopState) (e : IterEnv) (rest : List IterEnv)
    (h : envOk e = true) :
    streamRun st (e :: rest) =
      (streamStep st e).2.1 :: streamRun ⟨none, none⟩ rest := by
  have hc := streamStep_cont st e
  have hf := streamStep_fst st e
  rcases hs : streamStep st e with ⟨st', evs, ok⟩
  rw [hs] at hc hf
  simp at hc hf
  subst hf
  rw [h] at hc
  simp [streamRun, hs, hc]

/-- Unfolding the loop one iteration when the iteration records a failure:
the loop stops after that iteration's trace. -/
theorem streamRun_cons_fail (st : LoopState) (e : IterEnv) (rest : List IterEnv)
    (h : envOk e = false) :
    streamRun st (e :: rest) = [(streamStep st e).2.1] := by
  have hc := streamStep_cont st e
  rcases hs : streamStep st e with ⟨st', evs, ok⟩
  rw [hs] at hc
  simp at hc
  rw [h] at hc
  simp [streamRun, hs, hc]

/-- The number of iterations the loop executes: every iteration up to and
including the first failing one, and all of them when none fails. -/
theorem stream_handler_length (envs : List IterEnv) :
    (stream_handler envs).length = min ((envs.takeWhile envOk).length + 1) envs.length := by
  induction envs with
  | nil => simp [stream_handler, streamRun]
  | cons e rest ih =>
    cases he : envOk e with
    | false =>
      rw [stream_handler, streamRun_cons_fail ⟨none, none⟩ e rest he]
      simp [List.takeWhile_cons, he]
    | true =>
      rw [stream_handler, streamRun_cons_ok ⟨none, none⟩ e rest he]
      have ih' := ih
      rw [stream_handler] at ih'
      simp [List.takeWhile_cons, he, ih']
      omega

/-- `writesOf` distributes over trace concatenation. -/
theorem writesOf_append (a b : List Ev) : writesOf (a ++ b) = writesOf a ++ writesOf b :=
  List.filterMap_append a b _

/-- Claim C1, counterexample: in a run with a single fully successful JPEG
frame, the very first chunk written is the part header, not the boundary
marker — so the handler does not write a boundary before the first frame,
and the per-iteration write order does not begin with the boundary. -/
theorem stream_first_write_is_part_header_not_boundary :
    (writesOf ((stream_handler
        [⟨some ⟨PixFormat.jpeg, [1, 2, 3]⟩, none, true, true, true⟩]).flatten)).head? =
      some (ChunkData.str (streamPart 3)) ∧
    streamPart 3 ≠ STREAM_BOUNDARY := by
  decide

/-- Claim C1 (amended): in every iteration of the streaming loop that
reaches the write step with the header and payload writes succeeding, the
handler writes, in this order: the part header, then the JPEG payload, then
the boundary marker `\r\n--<BOUNDARY>\r\n` (the boundary follows each frame
rather than preceding it, so none is written before the very first frame),
each as a separate chunked write. -/
theorem stream_write_order_header_payload_boundary (st : LoopState) (e : IterEnv)
    (buf : List Nat) (hp : envPayload e = some buf)
    (hh : e.headerOk = true) (hw : e.payloadOk = true) :
    writesOf (streamStep st e).2.1 =
      [ChunkData.str (streamPart buf.length), ChunkData.bytes buf,
       ChunkData.str STREAM_BOUNDARY] :=
  streamStep_writes st e buf hp hh hw

/-- Witness for the amended C1 theorem at a concrete iteration. -/
theorem stream_write_order_header_payload_boundary_witness :
    envPayload ⟨some ⟨PixFormat.jpeg, [7, 8]⟩, none, true, true, true⟩ = some [7, 8] ∧
    writesOf (streamStep ⟨none, none⟩
        ⟨some ⟨PixFormat.jpeg, [7, 8]⟩, none, true, true, true⟩).2.1 =
      [ChunkData.str (streamPart 2), ChunkData.bytes [7, 8],
       ChunkData.str STREAM_BOUNDARY] :=
  ⟨by decide,
   stream_write_order_header_payload_boundary ⟨none, none⟩
     ⟨some ⟨PixFormat.jpeg, [7, 8]⟩, none, true, true, true⟩ [7, 8] (by decide) rfl rfl⟩

/-- Claim C2: in a run whose every iteration succeeds (acquisition, encode
where needed, and all three writes), the loop executes exactly N iterations,
the chunk trace is exactly the N triples part-header/payload/boundary with
each Content-Length equal to the byte length of the payload written
immediately after it, and exactly N payload emissions occur. -/
theorem stream_emits_n_triples_with_exact_content_length
    (envs : List IterEnv) (h : ∀ e ∈ envs, envOk e = true) :
    (stream_handler envs).length = envs.length ∧
    writesOf (stream_handler envs).flatten =
      (envs.map fun e =>
        [ChunkData.str (streamPart ((envPayload e).getD []).length),
         ChunkData.bytes ((envPayload e).getD []),
         ChunkData.str STREAM_BOUNDARY]).flatten ∧
    (writesOf (stream_handler envs).flatten).countP isPayloadChunk = envs.length := by
  induction envs with
  | nil => exact ⟨rfl, rfl, rfl⟩
  | cons e rest ih =>
    have he : envOk e = true := h e (List.mem_cons_self e rest)
    have hrest : ∀ x ∈ rest, envOk x = true := fun x hx => h x (List.mem_cons_of_mem e hx)
    obtain ⟨ih1, ih2, ih3⟩ := ih hrest
    cases hp : envPayload e with
    | none => rw [envOk, hp] at he; simp at he
    | some b =>
      have hflags : (e.headerOk = true ∧ e.payloadOk = true) ∧ e.boundaryOk = true := by
        rw [envOk, hp] at he; simpa using he
      have htriple := streamStep_writes ⟨none, none⟩ e b hp hflags.1.1 hflags.1.2
      have hcons := streamRun_cons_ok ⟨none, none⟩ e rest he
      rw [stream_handler] at ih1 ih2 ih3 ⊢
      rw [hcons]
      refine ⟨by simp [ih1], ?_, ?_⟩
      · rw [List.flatten_cons, writesOf_append, htriple, ih2, List.map_cons,
          List.flatten_cons, hp]
        rfl
      · rw [List.flatten_cons, writesOf_append, htriple, List.countP_append, ih3]
        simp [isPayloadChunk]
        omega

/-- Witness for the C2 theorem on a concrete two-frame schedule. -/
theorem stream_emits_n_triples_with_exact_content_length_witness :
    (∀ e ∈ envsTwoFrames, envOk e = true) ∧ (stream_handler envsTwoFrames).length = 2 := by
  have h : ∀ e ∈ envsTwoFrames, envOk e = true := by decide
  exact ⟨h, (stream_emits_n_triples_with_exact_content_length envsTwoFrames h).1⟩

/-- Claim C3, counterexample: an iteration that acquires a non-JPEG frame
and encodes it successfully performs BOTH a hardware release
(`esp_camera_fb_return`, right after encoding) AND a heap free of the encode
buffer (at the iteration's end) — refuting "exactly one of the two occurs,
never both". -/
theorem stream_nonjpeg_iteration_release_and_free_both_occur :
    ((stream_handler
        [⟨some ⟨PixFormat.other, [1]⟩, some [9, 9], true, true, true⟩]).flatten).count
        Ev.fbReturn = 1 ∧
    ((stream_handler
        [⟨some ⟨PixFormat.other, [1]⟩, some [9, 9], true, true, true⟩]).flatten).count
        Ev.freeBuf = 1 := by
  decide

/-- Claim C3 (amended): per iteration (from the loop-head state, where both
locals are NULL), resource events are balanced per resource and do not
depend on which write fails: no release or free when acquisition fails;
exactly one hardware release and no free for a JPEG frame; exactly one
hardware release AND exactly one heap free when a non-JPEG frame is
successfully encoded (one per resource — raw frame and encode buffer);
exactly one hardware release and no free when encoding fails. -/
theorem stream_release_free_balance (e : IterEnv) :
    ((streamStep ⟨none, none⟩ e).2.1.count Ev.fbReturn,
     (streamStep ⟨none, none⟩ e).2.1.count Ev.freeBuf) =
      (match e.fb with
       | none => (0, 0)
       | some f =>
         if f.format = PixFormat.jpeg then (1, 0)
         else
           match e.encodeRes with
           | some _ => (1, 1)
           | none => (1, 0)) := by
  rcases e with ⟨fb, enc, h1, h2, h3⟩
  cases fb with
  | none => simp [streamStep, acquirePhase, writePhase, releasePhase]
  | some f =>
    by_cases hf : f.format = PixFormat.jpeg
    · cases h1 <;> cases h2 <;> cases h3 <;>
        simp [streamStep, acquirePhase, writePhase, releasePhase, hf,
          List.count_append, List.count_cons]
    · cases enc <;> cases h1 <;> cases h2 <;> cases h3 <;>
        simp [streamStep, acquirePhase, writePhase, releasePhase, hf,
          List.count_append, List.count_cons]

/-- Claim C4, counterexample: a control request with both parameters present
but an unrecognised name (`var=bogus&val=1`) is answered with status 500,
not a 404-class response. -/
theorem control_bogus_var_returns_500_not_404 :
    (cmd_handler gJpeg hwAllOk ⟨true, true, true, some "bogus", some "1"⟩).2.status = 500 ∧
    (cmd_handler gJpeg hwAllOk ⟨true, true, true, some "bogus", some "1"⟩).2.status ≠ 404 := by
  decide

/-- Claim C4 (amended): a GET /control request with both parameters present
but an unrecognised parameter name returns the 500-class response (the
`res = -1` path collapses to `httpd_resp_send_500`), leaving the state
unchanged. -/
theorem control_unknown_var_returns_500 (g : Globals) (hw : HwEnv) (vname vstr : String)
    (h : vname ∉ (["framesize", "quality", "contrast", "brightness", "flash"] : List String)) :
    cmd_handler g hw ⟨true, true, true, some vname, some vstr⟩ = (g, resp500) := by
  simp only [List.mem_cons, List.not_mem_nil, or_false, not_or] at h
  obtain ⟨h1, h2, h3, h4, h5⟩ := h
  simp [cmd_handler, h1, h2, h3, h4, h5]

/-- Witness for the amended C4 theorem at a concrete request. -/
theorem control_unknown_var_returns_500_witness :
    (("bogus" : String) ∉
      (["framesize", "quality", "contrast", "brightness", "flash"] : List String)) ∧
    cmd_handler gJpeg hwAllOk ⟨true, true, true, some "bogus", some "17"⟩ =
      (gJpeg, resp500) := by
  have h : ("bogus" : String) ∉
      (["framesize", "quality", "contrast", "brightness", "flash"] : List String) := by
    decide
  exact ⟨h, control_unknown_var_returns_500 gJpeg hwAllOk "bogus" "17" h⟩

/-- Claim C5, counterexample: the index page response carries no
`Access-Control-Allow-Origin` header, and neither does the control handler's
error response — refuting "every HTTP response includes it". -/
theorem index_response_lacks_cors_header :
    corsHdr ∉ (index_handler "").headers ∧
    corsHdr ∉ (cmd_handler gJpeg hwAllOk
        ⟨true, true, true, some "bogus", some "1"⟩).2.headers := by
  decide

/-- Claim C5 (amended): the status, sensors, stream, capture-success and
control-success responses carry `Access-Control-Allow-Origin: *`, but the
index page response, the 404/500 error responses and the capture-failure
response do not. -/
theorem cors_header_coverage (g : Globals) (html sJson : String) (f : Frame)
    (eo : Bool) (eb : List Nat) :
    corsHdr ∈ (status_handler g).2.headers ∧
    corsHdr ∈ (sensors_handler sJson).headers ∧
    corsHdr ∈ streamRespHeaders ∧
    corsHdr ∈ (capture_handler ⟨some f, eo, eb⟩).1.headers ∧
    corsHdr ∈ okEmpty.headers ∧
    corsHdr ∉ (index_handler html).headers ∧
    corsHdr ∉ resp404.headers ∧
    corsHdr ∉ resp500.headers ∧
    corsHdr ∉ (capture_handler ⟨none, eo, eb⟩).1.headers := by
  refine ⟨by simp [status_handler, corsHdr], by simp [sensors_handler, corsHdr],
    by simp [streamRespHeaders, corsHdr], ?_, by simp [okEmpty, corsHdr],
    by simp [index_handler, corsHdr], by simp [resp404, corsHdr],
    by simp [resp500, corsHdr], by simp [capture_handler, resp500, corsHdr]⟩
  by_cases hf : f.format = PixFormat.jpeg <;> simp [capture_handler, corsHdr, hf]

/-- Claim C6: the capture handler releases the frame exactly once whenever
one was acquired (on the direct-JPEG path and on the encode path, encode
failure included), never frees a heap buffer, and sends a 500-class response
exactly when acquisition fails — with no release on that path. -/
theorem capture_release_iff_acquired (env : CaptureEnv) :
    ((capture_handler env).2.count Ev.fbReturn = if env.fb.isSome then 1 else 0) ∧
    ((capture_handler env).2.count Ev.freeBuf = 0) ∧
    ((capture_handler env).1.status = 500 ↔ env.fb = none) := by
  rcases env with ⟨fb, eo, eb⟩
  cases fb with
  | none => simp [capture_handler, resp500]
  | some f =>
    by_cases hf : f.format = PixFormat.jpeg <;>
      simp [capture_handler, hf]

/-- Claim C7: the `break` at an iteration's end fires exactly when a failure
was recorded in that iteration (the continuation flag equals `envOk`), and
therefore the loop executes every iteration up to and including the first
failing one — terminating at that iteration with no retry — and all
iterations when none fails. -/
theorem stream_loop_runs_until_first_failure (envs : List IterEnv) :
    (∀ st : LoopState, ∀ e : IterEnv, (streamStep st e).2.2 = envOk e) ∧
    (stream_handler envs).length = min ((envs.takeWhile envOk).length + 1) envs.length :=
  ⟨fun st e => streamStep_cont st e, stream_handler_length envs⟩

/-- Claim C8: the /status JSON body consists of exactly the fields
framesize, quality, brightness, contrast, temperature, humidity,
soilMoisture, serialised in exactly that order. -/
theorem status_json_fields_and_order (g : Globals) :
    (statusParts g).map Prod.fst =
      ["framesize", "quality", "brightness", "contrast", "temperature", "humidity",
       "soilMoisture"] ∧
    (status_handler g).2.body = ChunkData.str (statusJson g) :=
  ⟨rfl, rfl⟩

/-- Claim C9: the status handler mutates nothing, so two successive /status
requests with no intervening /control request return byte-identical
responses. -/
theorem status_handler_pure_and_idempotent (g : Globals) :
    (status_handler g).1 = g ∧
    (status_handler ((status_handler g).1)).2 = (status_handler g).2 :=
  ⟨rfl, rfl⟩

/-- Claim C10: a /control request with var=framesize and any val, when the
sensor's pixel format is not JPEG, returns the success response (empty body,
status 200, no error) and leaves the entire state — every camera parameter
included — unchanged: a silent no-op. -/
theorem control_framesize_nonjpeg_silent_noop (g : Globals) (hw : HwEnv) (vstr : String)
    (h : g.sensor.pixformat ≠ PixFormat.jpeg) :
    cmd_handler g hw ⟨true, true, true, some "framesize", some vstr⟩ = (g, okEmpty) := by
  simp [cmd_handler, h]

/-- Witness for the C10 theorem at a concrete non-JPEG state. -/
theorem control_framesize_nonjpeg_silent_noop_witness :
    gOther.sensor.pixformat ≠ PixFormat.jpeg ∧
    cmd_handler gOther hwAllOk ⟨true, true, true, some "framesize", some "7"⟩ =
      (gOther, okEmpty) := by
  have h : gOther.sensor.pixformat ≠ PixFormat.jpeg := by decide
  exact ⟨h, control_framesize_nonjpeg_silent_noop gOther hwAllOk "7" h⟩

end LeafVision
